import Mathlib

/-!
Verification of the training-orchestration core of `pathoMozhi/train/train.py`
(parameter grouping, checkpoint discovery and load, optimizer-state restore,
step bookkeeping, the epoch driver and startup validation).

Python strings are embedded as `List Char` (`PyStr`), with executable
counterparts of the Python string operations the script uses
(`str.endswith`, `str.lower`, the `in` containment test, `str.split` on a
single-character separator, `str.replace`, `int(...)` parsing).
-/

namespace PathoMozhi

/-- Embedding of a Python `str` as a list of characters. -/
abbrev PyStr := List Char

/-- Python `s.endswith(suffixStr)`. -/
def pyEndsWith (s suffixStr : PyStr) : Bool :=
  suffixStr.isSuffixOf s

/-- Python `s.lower()` (the names occurring here are ASCII). -/
def pyLower (s : PyStr) : PyStr :=
  s.map Char.toLower

/-- Python `sub in s` (substring containment, for non-empty `sub`). -/
def pyContains (s sub : PyStr) : Bool :=
  match s with
  | [] => sub.isEmpty
  | c :: rest => sub.isPrefixOf (c :: rest) || pyContains rest sub

/-- Python `s.split(sep)` for a single-character separator. -/
def pySplitChar (sep : Char) (s : PyStr) : List PyStr :=
  match s with
  | [] => [[]]
  | c :: rest =>
    if c = sep then [] :: pySplitChar sep rest
    else
      match pySplitChar sep rest with
      | [] => [[c]]
      | h :: t => (c :: h) :: t

/-- Fuel-driven worker for `pyReplace`; the fuel is the length of the
remaining string, so each step consumes at least one character. -/
def replaceFuel (pat repl : PyStr) : Nat → PyStr → PyStr
  | _, [] => []
  | 0, s => s
  | fuel + 1, c :: rest =>
    if pat.isPrefixOf (c :: rest) && !pat.isEmpty then
      repl ++ replaceFuel pat repl fuel (List.drop pat.length (c :: rest))
    else
      c :: replaceFuel pat repl fuel rest

/-- Python `s.replace(pat, repl)`: leftmost non-overlapping occurrences. -/
def pyReplace (s pat repl : PyStr) : PyStr :=
  replaceFuel pat repl s.length s

/-- Python `int(s)` restricted to the non-negative decimal literals produced
by the checkpoint naming scheme; `none` models a raised `ValueError`. -/
def pyInt (s : PyStr) : Option Nat :=
  if s ≠ [] && s.all Char.isDigit then
    some (s.foldl (fun a c => a * 10 + (c.toNat - 48)) 0)
  else none

/-- The Python exceptions the embedded fragments can raise. -/
inductive PyError
  | attributeError (name : PyStr)
  | nameError (name : PyStr)
  | valueError (msg : PyStr)
  deriving DecidableEq, Repr

/-! ## Parameter grouping (`get_grouped_params`, train.py lines 194-237) -/

/-- A model parameter as seen by the grouping code: its gradient flag, the
`exclude_from_optimizer` attribute, its number of dimensions, and an identity
tag standing for the underlying tensor object. -/
structure Param where
  requires_grad : Bool
  exclude_from_optimizer : Bool
  ndim : Nat
  pid : Nat
  deriving DecidableEq, Repr

/-- train.py lines 195-201: `params_to_optimize` filters
`ddp_model.named_parameters()` down to entries with `requires_grad` set and
without the `exclude_from_optimizer` attribute. -/
def params_to_optimize (named_parameters : List (PyStr × Param)) : List (PyStr × Param) :=
  named_parameters.filter fun x => x.2.requires_grad && !x.2.exclude_from_optimizer

/-- The loop of `get_grouped_params` (train.py lines 217-226): returns the
`decay`, `no_decay` and `gate` lists, in iteration order. -/
def group_params : List (PyStr × Param) → List Param × List Param × List Param
  | [] => ([], [], [])
  | (n, p) :: rest =>
    let (decay, no_decay, gate) := group_params rest
    if !p.requires_grad then
      (decay, no_decay, gate)
    else if pyEndsWith n ("attn_gate".toList) || pyEndsWith n ("ff_gate".toList) then
      (decay, no_decay, p :: gate)
    else if p.ndim == 1 || pyEndsWith n (".bias".toList) || pyContains (pyLower n) ("norm".toList) then
      (decay, p :: no_decay, gate)
    else
      (p :: decay, no_decay, gate)

/-- One of the three dictionaries returned by `get_grouped_params`
(train.py lines 228-232). Rates and decay coefficients are embedded as
rationals. -/
structure PGroup where
  params : List Param
  weight_decay : ℚ
  lr : ℚ
  deriving DecidableEq, Repr

/-- Default of the `gate_lr_mult` keyword of `get_grouped_params`
(train.py line 203). -/
def gate_lr_mult_default : ℚ := 5

/-- train.py lines 203-232: `get_grouped_params` builds the three parameter
groups and their rates; `gate_lr = none` models passing `None`. -/
def get_grouped_params (named_params : List (PyStr × Param)) (base_lr wd : ℚ)
    (gate_lr : Option ℚ) (gate_lr_mult : ℚ) : List PGroup :=
  let (decay, no_decay, gate) := group_params named_params
  let lr_gate := match gate_lr with
    | some g => g
    | none => base_lr * gate_lr_mult
  [ { params := decay, weight_decay := wd, lr := base_lr },
    { params := no_decay, weight_decay := 0, lr := base_lr },
    { params := gate, weight_decay := 0, lr := lr_gate } ]

/-- train.py lines 234-237: the argument actually passed to the AdamW
constructor — `get_grouped_params` applied to the filtered parameters with
the configured base rate, weight decay and optional gate rate, leaving
`gate_lr_mult` at its default. -/
def optimizer_grouped_params (named_parameters : List (PyStr × Param))
    (learning_rate weight_decay : ℚ) (gate_learning_rate : Option ℚ) : List PGroup :=
  get_grouped_params (params_to_optimize named_parameters) learning_rate weight_decay
    gate_learning_rate gate_lr_mult_default

/-! ## Checkpoint discovery (train.py lines 150-161) -/

/-- The sort key of train.py line 159:
`int(x.split("_")[-1].split(".")[0])`; `none` models a raised `ValueError`
from `int(...)`. -/
def ckptKey (x : PyStr) : Option Nat :=
  pyInt ((pySplitChar '.' ((pySplitChar '_' x).getLastD [])).headD [])

/-- `ckptKey` with the (unreachable for glob-matched well-formed names)
parse failure defaulted to `0`, so it can serve as a total sort key. -/
def ckptKeyD (x : PyStr) : Nat :=
  (ckptKey x).getD 0

/-- The ordering used to model `sorted(checkpoint_list, key=...)`. -/
def key_le (a b : PyStr) : Prop :=
  ckptKeyD a ≤ ckptKeyD b

instance : DecidableRel key_le := fun a b => Nat.decLe (ckptKeyD a) (ckptKeyD b)

instance : IsTotal PyStr key_le := ⟨fun a b => Nat.le_total (ckptKeyD a) (ckptKeyD b)⟩

instance : IsTrans PyStr key_le := ⟨fun _ _ _ => Nat.le_trans⟩

/-- train.py lines 158-160: `sorted(checkpoint_list, key=...)[-1]`
(a stable sort by the embedded epoch number, then the last element). -/
def discovered_checkpoint (checkpoint_list : List PyStr) : PyStr :=
  (List.insertionSort key_le checkpoint_list).getLastD []

/-- train.py lines 153-161: discovery runs only when the run directory
exists and no explicit `--resume_from_checkpoint` was given; with an empty
glob result it leaves the resume path unset, otherwise it selects the file
with the maximum embedded epoch number. -/
def discover_resume (resume_from_checkpoint : Option PyStr) (dir_exists : Bool)
    (checkpoint_list : List PyStr) : Option PyStr :=
  if dir_exists && resume_from_checkpoint.isNone then
    if checkpoint_list.length = 0 then resume_from_checkpoint
    else some (discovered_checkpoint checkpoint_list)
  else resume_from_checkpoint

/-! ## Checkpoint load (train.py lines 163-173) -/

/-- The `optimizer_state_dict` entry of a checkpoint, abstracted to the
datum the load code inspects: the length of its `param_groups` list. -/
structure OptSD where
  param_groups : Nat
  deriving DecidableEq, Repr

/-- A `CheckpointRecord` as written by `save_checkpoint`: model weights
(tensor values abstracted to `Nat`), optimizer state, scheduler state
(opaque), and the completed epoch index. -/
structure Checkpoint where
  model_state_dict : List (PyStr × Nat)
  optimizer_state_dict : Option OptSD
  lr_scheduler_state_dict : Nat
  epoch : Nat
  deriving DecidableEq, Repr

/-- The `dest` names declared by `parser.add_argument` in train.py
lines 46-84 (the `argparse` namespace fields). -/
def main_parser_dests : List PyStr :=
  [ "lm_path".toList, "max_tokens".toList, "tokenizer_path".toList,
    "cross_attn_every_n_layers".toList, "run_name".toList,
    "resume_from_checkpoint".toList, "delete_previous_checkpoint".toList,
    "batch_size".toList, "gradient_accumulation_steps".toList, "seed".toList,
    "learning_rate".toList, "lr_scheduler".toList, "gate_learning_rate".toList,
    "loss_multiplier".toList, "warmup_steps".toList, "weight_decay".toList,
    "precision".toList, "gradient_checkpointing".toList, "num_epochs".toList,
    "offline".toList, "freeze_lm_embeddings".toList, "logging_steps".toList,
    "vision_features".toList, "jsonl_file".toList, "workers".toList,
    "train_num_samples".toList, "new_tokens".toList, "dist_url".toList,
    "dist_backend".toList, "report_to_wandb".toList, "wandb_project".toList,
    "wandb_entity".toList, "save_checkpoints_to_wandb".toList ]

/-- The attributes present on `args` when line 172 runs: the parser dests
plus `local_rank`, `rank`, `world_size` assigned on line 95. Modelled from
the spec for the part outside src/: per the spec's design notes, `fsdp` is
"referenced but never defined as a config flag elsewhere in the shown
code", i.e. neither `world_info_from_env` nor `init_distributed_device`
(the `distributed` module, not under src/) defines an `fsdp` attribute. -/
def main_namespace_attrs : List PyStr :=
  main_parser_dests ++ ["local_rank".toList, "rank".toList, "world_size".toList]

/-- The value of `args.fsdp` as an attribute lookup: `none` models the
`AttributeError` Python raises for an attribute absent from the
`argparse.Namespace`. -/
def args_fsdp : Option Bool :=
  if main_namespace_attrs.contains ("fsdp".toList) then some true else none

/-- train.py lines 163-173: the checkpoint-load phase. Returns
`resume_from_epoch` together with the argument pair of the executed
`model.load_state_dict(msd, False)` call (`none` when the call is skipped).
The saved keys pass through `k.replace("module.", "")` and
`resume_from_epoch` is the saved epoch plus one before line 172 evaluates
`args.fsdp`. -/
def load_model_phase (resume : Option Checkpoint) (rank : Nat) (fsdp : Option Bool) :
    Except PyError (Nat × Option (List (PyStr × Nat) × Bool)) :=
  match resume with
  | none => .ok (0, none)
  | some ckpt =>
    let msd := ckpt.model_state_dict.map fun kv => (pyReplace kv.1 ("module.".toList) [], kv.2)
    let resume_from_epoch := ckpt.epoch + 1
    match fsdp with
    | none => .error (.attributeError ("fsdp".toList))
    | some f =>
      if !f || rank == 0 then .ok (resume_from_epoch, some (msd, false))
      else .ok (resume_from_epoch, none)

/-! ## Optimizer-state restore (train.py lines 234-248) -/

/-- A line printed to standard output, possibly carrying a number. -/
inductive LogLine
  | text (s : PyStr)
  | text_nat (s : PyStr) (n : Nat)
  deriving DecidableEq, Repr

/-- The AdamW optimizer as the load code sees it: its parameter groups and
the restored state (`none` is the freshly constructed default state). -/
structure Optimizer where
  param_groups : List PGroup
  loaded_state : Option OptSD
  deriving DecidableEq, Repr

/-- Modelled from the spec (torch.optim is outside this repository):
`Optimizer.load_state_dict` "if the number of parameter groups in the saved
state does not match the current run's groups ... the mismatch" raises,
which the caller catches as a `ValueError`; on a match the saved state is
installed. -/
def adamw_load_state_dict (optimizer : Optimizer) (osd : OptSD) : Except PyError Optimizer :=
  if osd.param_groups ≠ optimizer.param_groups.length then
    .error (.valueError ("loaded state dict has a different number of parameter groups".toList))
  else
    .ok { optimizer with loaded_state := some osd }

/-- train.py lines 240-248: the optimizer-checkpoint load. Attempted only
on resume and only when the record has an `optimizer_state_dict`; a
`ValueError` is caught, the three warning lines are printed and the
freshly constructed optimizer is kept. -/
def load_optimizer_checkpoint (resume_from_checkpoint : Bool) (checkpoint_osd : Option OptSD)
    (optimizer : Optimizer) : Except PyError (Optimizer × List LogLine) :=
  if resume_from_checkpoint then
    match checkpoint_osd with
    | some osd =>
      match adamw_load_state_dict optimizer osd with
      | .ok o => .ok (o, [])
      | .error (.valueError _) =>
        .ok (optimizer,
          [ .text ("WARNING: Optimizer state_dict could not be loaded due to mismatch.".toList),
            .text_nat ("Checkpoint param groups:".toList) osd.param_groups,
            .text_nat ("Current optimizer param groups:".toList) optimizer.param_groups.length ])
      | .error e => .error e
    | none => .ok (optimizer, [])
  else .ok (optimizer, [])

/-! ## Step bookkeeping (train.py lines 251-253) -/

/-- The configuration fields feeding step bookkeeping, together with the
per-replica rank fields (which must not influence the step count). -/
structure TrainingConfig where
  train_num_samples : Nat
  batch_size : Nat
  world_size : Nat
  num_epochs : Nat
  rank : Nat
  local_rank : Nat
  deriving DecidableEq, Repr

/-- train.py lines 251-253:
`total_training_steps = (train_num_samples // (batch_size * world_size)) * num_epochs`. -/
def total_training_steps (args : TrainingConfig) : Nat :=
  args.train_num_samples / (args.batch_size * args.world_size) * args.num_epochs

/-! ## Epoch driver (train.py lines 283-303) and startup validation -/

/-- The observable actions of the epoch driver: running one training pass
and invoking `save_checkpoint` for an epoch. -/
inductive TrainEvent
  | train_epoch (e : Nat)
  | save_ckpt (e : Nat)
  deriving DecidableEq, Repr

/-- train.py lines 283-303: `for epoch in range(resume_from_epoch,
num_epochs)` trains then saves per epoch; afterwards line 303 calls
`save_checkpoint(..., epoch, args)` with the loop variable, which Python
leaves undefined (`NameError`) when the loop body never ran. -/
def epoch_driver (resume_from_epoch num_epochs : Nat) : Except PyError (List TrainEvent) :=
  let epochs := List.range' resume_from_epoch (num_epochs - resume_from_epoch)
  let loop_events := epochs.flatMap fun e => [TrainEvent.train_epoch e, TrainEvent.save_ckpt e]
  match epochs.getLast? with
  | some e => .ok (loop_events ++ [TrainEvent.save_ckpt e])
  | none => .error (.nameError ("epoch".toList))

/-- train.py lines 88-89: the startup flag check, raising a `ValueError`
when checkpoint upload to wandb is requested without wandb reporting. -/
def startup_check (save_checkpoints_to_wandb report_to_wandb : Bool) : Except PyError Unit :=
  if save_checkpoints_to_wandb && !report_to_wandb then
    .error (.valueError ("save_checkpoints_to_wandb requires report_to_wandb".toList))
  else .ok ()

/-- The position of the flag check in `main`: it runs before any training
work, so a failing check aborts with the raised error and no training
events occur. -/
def main_startup (save_checkpoints_to_wandb report_to_wandb : Bool)
    (training_events : List TrainEvent) : Except PyError (List TrainEvent) :=
  match startup_check save_checkpoints_to_wandb report_to_wandb with
  | .error e => .error e
  | .ok _ => .ok training_events

/-! ## Helper lemmas -/

/-- The three lists built by the `get_grouped_params` loop are, taken
together, a permutation of the `requires_grad` entries of its input. -/
theorem group_params_perm (l : List (PyStr × Param)) :
    List.Perm ((group_params l).1 ++ ((group_params l).2.1 ++ (group_params l).2.2))
      ((l.filter fun x => x.2.requires_grad).map Prod.snd) := by
  induction l with
  | nil => simp [group_params]
  | cons hd tl ih =>
    obtain ⟨n, p⟩ := hd
    rcases hgp : group_params tl with ⟨d, nd, g⟩
    rw [hgp] at ih
    dsimp only at ih
    simp only [group_params, hgp]
    split_ifs with h1 h2 h3
    · have hrg : p.requires_grad = false := by simpa using h1
      simpa [List.filter_cons, hrg] using ih
    · have hrg : p.requires_grad = true := by simpa using h1
      have e1 : List.Perm (nd ++ p :: g) (p :: (nd ++ g)) := List.perm_middle
      have e2 : List.Perm (d ++ (p :: (nd ++ g))) (p :: (d ++ (nd ++ g))) := List.perm_middle
      simpa [List.filter_cons, hrg] using ((e1.append_left d).trans e2).trans (ih.cons p)
    · have hrg : p.requires_grad = true := by simpa using h1
      have e2 : List.Perm (d ++ (p :: (nd ++ g))) (p :: (d ++ (nd ++ g))) := List.perm_middle
      simpa [List.filter_cons, hrg] using e2.trans (ih.cons p)
    · have hrg : p.requires_grad = true := by simpa using h1
      simpa [List.filter_cons, hrg] using ih.cons p


/-- The last element of a list sorted by the checkpoint key carries the
maximum key. -/
theorem sorted_le_getLast (l : List PyStr) (h : l ≠ []) (hs : List.Sorted key_le l) :
    ∀ x ∈ l, ckptKeyD x ≤ ckptKeyD (l.getLast h) := by
  induction l with
  | nil => exact absurd rfl h
  | cons a t ih =>
    intro x hx
    cases t with
    | nil =>
      have hxa : x = a := by simpa using hx
      simp [hxa]
    | cons b t2 =>
      rw [List.getLast_cons (by simp : b :: t2 ≠ [])]
      rcases List.mem_cons.mp hx with hxa | hxt
      · subst hxa
        have hrel : ∀ y ∈ b :: t2, key_le x y := List.rel_of_sorted_cons hs
        exact hrel _ (List.getLast_mem (by simp))
      · exact ih (by simp) hs.of_cons x hxt

/-! ## Claim theorems -/

/-- C1: parameter grouping yields exactly three groups, every parameter
with gradients enabled and not flagged `exclude_from_optimizer` lands in
exactly one of them (the joined group contents are a permutation of the
kept entries), and any parameter with gradients disabled or the exclusion
flag set appears in no group. -/
theorem grouped_params_partition (named_parameters : List (PyStr × Param))
    (base_lr wd : ℚ) (gate_lr : Option ℚ) :
    (optimizer_grouped_params named_parameters base_lr wd gate_lr).length = 3 ∧
    List.Perm
      (((optimizer_grouped_params named_parameters base_lr wd gate_lr).map PGroup.params).flatten)
      ((named_parameters.filter
        fun x => x.2.requires_grad && !x.2.exclude_from_optimizer).map Prod.snd) ∧
    (∀ n p, (n, p) ∈ named_parameters →
      (p.requires_grad = false ∨ p.exclude_from_optimizer = true) →
      ∀ grp ∈ optimizer_grouped_params named_parameters base_lr wd gate_lr,
        p ∉ grp.params) := by
  have hpred : ∀ x : PyStr × Param,
      (x.2.requires_grad && (x.2.requires_grad && !x.2.exclude_from_optimizer))
        = (x.2.requires_grad && !x.2.exclude_from_optimizer) := by
    intro x
    cases x.2.requires_grad <;> cases x.2.exclude_from_optimizer <;> rfl
  have hperm : List.Perm
      (((optimizer_grouped_params named_parameters base_lr wd gate_lr).map PGroup.params).flatten)
      ((named_parameters.filter
        fun x => x.2.requires_grad && !x.2.exclude_from_optimizer).map Prod.snd) := by
    have h1 := group_params_perm (params_to_optimize named_parameters)
    rcases hgp : group_params (params_to_optimize named_parameters) with ⟨d, nd, g⟩
    rw [hgp] at h1
    dsimp only at h1
    have h2 : (params_to_optimize named_parameters).filter (fun x => x.2.requires_grad)
        = named_parameters.filter
            fun x => x.2.requires_grad && !x.2.exclude_from_optimizer := by
      rw [params_to_optimize, List.filter_filter]
      exact List.filter_congr fun x _ => by rw [hpred]
    rw [h2] at h1
    rcases hg : gate_lr with _ | glr <;>
      simpa [optimizer_grouped_params, get_grouped_params, hgp, hg] using h1
  refine ⟨?_, hperm, ?_⟩
  · rcases hgp : group_params (params_to_optimize named_parameters) with ⟨d, nd, g⟩
    rcases hg : gate_lr with _ | glr <;>
      simp [optimizer_grouped_params, get_grouped_params, hgp, hg]
  · intro n p hmem hbad grp hgrp hp
    have hjoin : p ∈ ((optimizer_grouped_params named_parameters base_lr wd gate_lr).map
        PGroup.params).flatten :=
      List.mem_flatten.mpr ⟨grp.params, List.mem_map_of_mem PGroup.params hgrp, hp⟩
    have hfil := hperm.mem_iff.mp hjoin
    rcases List.mem_map.mp hfil with ⟨x, hxmem, hxp⟩
    have hkeep := (List.mem_filter.mp hxmem).2
    rw [hxp] at hkeep
    rcases hbad with hb | hb <;> simp [hb] at hkeep

/-- C1 witness: a frozen parameter is placed in none of the three groups
of a concrete grouping, which itself has exactly three groups. -/
theorem grouped_params_partition_witness :
    (optimizer_grouped_params
      [(("w".toList : PyStr), Param.mk false false 2 7)] 1 1 none).length = 3 ∧
    Param.mk false false 2 7 ∉ (PGroup.mk [] 1 1).params :=
  ⟨(grouped_params_partition [(("w".toList : PyStr), Param.mk false false 2 7)] 1 1 none).1,
    (grouped_params_partition [(("w".toList : PyStr), Param.mk false false 2 7)] 1 1 none).2.2
      ("w".toList) (Param.mk false false 2 7) (by simp) (Or.inl rfl)
      (PGroup.mk [] 1 1) (by decide)⟩

/-- C2: a trainable parameter whose name ends with `attn_gate` or
`ff_gate` is routed to the `gate` list, leaving `decay` and `no_decay`
untouched, for every dimensionality, bias suffix or normalization marker
the parameter may otherwise carry (the gate rule precedes the `no_decay`
rule). -/
theorem gate_suffix_has_precedence (n : PyStr) (p : Param) (rest : List (PyStr × Param))
    (hrg : p.requires_grad = true)
    (hsuf : pyEndsWith n ("attn_gate".toList) = true ∨ pyEndsWith n ("ff_gate".toList) = true) :
    (group_params ((n, p) :: rest)).1 = (group_params rest).1 ∧
    (group_params ((n, p) :: rest)).2.1 = (group_params rest).2.1 ∧
    (group_params ((n, p) :: rest)).2.2 = p :: (group_params rest).2.2 := by
  rcases hgp : group_params rest with ⟨d, nd, g⟩
  have hcond : (pyEndsWith n ("attn_gate".toList) || pyEndsWith n ("ff_gate".toList)) = true := by
    rcases hsuf with h | h <;> rw [h] <;> simp
  simp only [group_params, hgp, hrg, hcond]
  simp

/-- C2 witness: a one-dimensional parameter named `norm.attn_gate` (which
also matches the `no_decay` conditions) still goes to the gate list. -/
theorem gate_suffix_has_precedence_witness :
    (group_params [(("norm.attn_gate".toList : PyStr), Param.mk true false 1 1)]).1 = [] ∧
    (group_params [(("norm.attn_gate".toList : PyStr), Param.mk true false 1 1)]).2.1 = [] ∧
    (group_params [(("norm.attn_gate".toList : PyStr), Param.mk true false 1 1)]).2.2
      = [Param.mk true false 1 1] :=
  gate_suffix_has_precedence ("norm.attn_gate".toList) (Param.mk true false 1 1) []
    rfl (Or.inl (by decide))

/-- C3: discovery leaves an explicit resume path untouched; with no
checkpoint files the resume path stays unset and the job starts from epoch
0; with files present, discovery selects a file of maximal embedded epoch
number. -/
theorem checkpoint_discovery_max_epoch (r : PyStr) (dir_exists : Bool) (files : List PyStr)
    (hne : files ≠ []) (_hparse : ∀ f ∈ files, (ckptKey f).isSome = true) :
    discover_resume (some r) dir_exists files = some r ∧
    discover_resume none dir_exists [] = none ∧
    load_model_phase none 0 args_fsdp = .ok (0, none) ∧
    ∃ f ∈ files, discover_resume none true files = some f ∧
      ∀ g ∈ files, ckptKeyD g ≤ ckptKeyD f := by
  refine ⟨by simp [discover_resume], by cases dir_exists <;> simp [discover_resume], rfl, ?_⟩
  have hlen : files.length = 0 ↔ False := by
    simpa using fun h => hne (List.length_eq_zero.mp h)
  have hsne : List.insertionSort key_le files ≠ [] := by
    intro h
    apply hne
    apply List.length_eq_zero.mp
    simpa using congrArg List.length h
  refine ⟨(List.insertionSort key_le files).getLast hsne, ?_, ?_, ?_⟩
  · exact (List.mem_insertionSort key_le).mp (List.getLast_mem hsne)
  · have hd : discovered_checkpoint files
        = (List.insertionSort key_le files).getLast hsne := by
      rw [discovered_checkpoint, List.getLastD_eq_getLast?, List.getLast?_eq_getLast _ hsne]
      rfl
    simp [discover_resume, hlen, hd]
  · intro g hg
    exact sorted_le_getLast _ hsne (List.sorted_insertionSort key_le files) g
      ((List.mem_insertionSort key_le).mpr hg)

/-- C3 witness: among `checkpoint_3.pt`, `checkpoint_7.pt`,
`checkpoint_5.pt`, discovery selects a maximal-epoch file, and concretely
that file is `checkpoint_7.pt`. -/
theorem checkpoint_discovery_max_epoch_witness :
    (∃ f ∈ ([ "checkpoint_3.pt".toList, "checkpoint_7.pt".toList,
              "checkpoint_5.pt".toList ] : List PyStr),
      discover_resume none true
        [ "checkpoint_3.pt".toList, "checkpoint_7.pt".toList,
          "checkpoint_5.pt".toList ] = some f ∧
      ∀ g ∈ ([ "checkpoint_3.pt".toList, "checkpoint_7.pt".toList,
               "checkpoint_5.pt".toList ] : List PyStr), ckptKeyD g ≤ ckptKeyD f) ∧
    discover_resume none true
      [ "checkpoint_3.pt".toList, "checkpoint_7.pt".toList,
        "checkpoint_5.pt".toList ] = some ("checkpoint_7.pt".toList) := by
  constructor
  · exact (checkpoint_discovery_max_epoch ("x".toList) true
      [ "checkpoint_3.pt".toList, "checkpoint_7.pt".toList, "checkpoint_5.pt".toList ]
      (by decide) (by decide)).2.2.2
  · decide

/-- C4: evaluating the checkpoint-load phase of `main` at a concrete
resume record: the code reaches line 172, evaluates `args.fsdp` — an
attribute the argument parser never declares — and raises
`AttributeError` instead of completing the non-strict weight load the
claim describes. -/
theorem resume_load_fsdp_attribute_error :
    load_model_phase
      (some (Checkpoint.mk [("module.weight".toList, 3)] (some (OptSD.mk 3)) 0 4)) 0 args_fsdp
      = .error (.attributeError ("fsdp".toList)) := rfl

/-- C5: on resume, a saved optimizer state whose parameter-group count
differs from the current optimizer is not fatal: the `ValueError` is
caught, the warning lines are printed, and the freshly constructed
optimizer is returned unchanged. -/
theorem optimizer_load_mismatch_recovers (optimizer : Optimizer) (osd : OptSD)
    (hmis : osd.param_groups ≠ optimizer.param_groups.length) :
    load_optimizer_checkpoint true (some osd) optimizer
      = .ok (optimizer,
        [ .text ("WARNING: Optimizer state_dict could not be loaded due to mismatch.".toList),
          .text_nat ("Checkpoint param groups:".toList) osd.param_groups,
          .text_nat ("Current optimizer param groups:".toList)
            optimizer.param_groups.length ]) := by
  simp [load_optimizer_checkpoint, adamw_load_state_dict, hmis]

/-- C5 witness: a freshly constructed three-group optimizer and a saved
state with two groups recover with the warning printed. -/
theorem optimizer_load_mismatch_recovers_witness :
    load_optimizer_checkpoint true (some (OptSD.mk 2))
      (Optimizer.mk [PGroup.mk [] 1 1, PGroup.mk [] 0 1, PGroup.mk [] 0 5] none)
      = .ok (Optimizer.mk [PGroup.mk [] 1 1, PGroup.mk [] 0 1, PGroup.mk [] 0 5] none,
        [ .text ("WARNING: Optimizer state_dict could not be loaded due to mismatch.".toList),
          .text_nat ("Checkpoint param groups:".toList) 2,
          .text_nat ("Current optimizer param groups:".toList) 3 ]) :=
  optimizer_load_mismatch_recovers
    (Optimizer.mk [PGroup.mk [] 1 1, PGroup.mk [] 0 1, PGroup.mk [] 0 5] none)
    (OptSD.mk 2) (by decide)

/-- C6: the total step count is `floor(train_num_samples / (batch_size *
world_size)) * num_epochs` (natural-number division is floor division),
and any two replicas whose configurations agree on these four fields —
regardless of their ranks — compute the same total. -/
theorem total_training_steps_replica_determinism (a b : TrainingConfig)
    (hsamples : a.train_num_samples = b.train_num_samples)
    (hbatch : a.batch_size = b.batch_size)
    (hworld : a.world_size = b.world_size)
    (hepochs : a.num_epochs = b.num_epochs) :
    total_training_steps a
      = a.train_num_samples / (a.batch_size * a.world_size) * a.num_epochs ∧
    total_training_steps a = total_training_steps b := by
  refine ⟨rfl, ?_⟩
  rw [total_training_steps, total_training_steps, hsamples, hbatch, hworld, hepochs]

/-- C6 witness: two replicas that differ only in rank both compute
`floor(10000 / (128 * 2)) * 3 = 117` steps. -/
theorem total_training_steps_replica_determinism_witness :
    total_training_steps (TrainingConfig.mk 10000 128 2 3 0 0) = 117 ∧
    total_training_steps (TrainingConfig.mk 10000 128 2 3 0 0)
      = total_training_steps (TrainingConfig.mk 10000 128 2 3 1 1) :=
  ⟨by decide,
    (total_training_steps_replica_determinism
      (TrainingConfig.mk 10000 128 2 3 0 0) (TrainingConfig.mk 10000 128 2 3 1 1)
      rfl rfl rfl rfl).2⟩

/-- C7: the learning rates of the constructed groups are the base rate for
`decay` and `no_decay`, and for `gate` the explicit override when
configured, otherwise the base rate times the multiplier, whose default is
5. -/
theorem group_learning_rates (named_parameters : List (PyStr × Param))
    (base_lr wd : ℚ) (gate_lr : Option ℚ) :
    (optimizer_grouped_params named_parameters base_lr wd gate_lr).map PGroup.lr
      = [base_lr, base_lr, gate_lr.getD (base_lr * gate_lr_mult_default)] ∧
    gate_lr_mult_default = 5 := by
  rcases hgp : group_params (params_to_optimize named_parameters) with ⟨d, nd, g⟩
  rcases hg : gate_lr with _ | glr <;>
    simp [optimizer_grouped_params, get_grouped_params, hgp, hg, gate_lr_mult_default]

/-- C8: the epoch driver invokes Save after each trained epoch and once
more after the loop; but when the loop body runs zero times (resume epoch
equal to the epoch count) the final `save_checkpoint` call raises
`NameError` on the undefined loop variable instead of saving. -/
theorem epoch_driver_saves :
    epoch_driver 0 2 = .ok
      [ TrainEvent.train_epoch 0, TrainEvent.save_ckpt 0,
        TrainEvent.train_epoch 1, TrainEvent.save_ckpt 1, TrainEvent.save_ckpt 1 ] ∧
    epoch_driver 1 1 = .error (.nameError ("epoch".toList)) :=
  ⟨rfl, rfl⟩

/-- C9: requesting checkpoint upload to wandb without enabling wandb
reporting makes startup raise a `ValueError` before any training event
occurs, rather than warning and continuing. -/
theorem wandb_flags_fatal_startup (s r : Bool) (training_events : List TrainEvent)
    (hs : s = true) (hr : r = false) :
    main_startup s r training_events
      = .error (.valueError
          ("save_checkpoints_to_wandb requires report_to_wandb".toList)) := by
  subst hs hr
  rfl

/-- C9 witness: the contradiction aborts a run that would otherwise train
one epoch. -/
theorem wandb_flags_fatal_startup_witness :
    main_startup true false [TrainEvent.train_epoch 0, TrainEvent.save_ckpt 0]
      = .error (.valueError
          ("save_checkpoints_to_wandb requires report_to_wandb".toList)) :=
  wandb_flags_fatal_startup true false
    [TrainEvent.train_epoch 0, TrainEvent.save_ckpt 0] rfl rfl

/-- C10: for every parameter set and configured base weight decay, the
weight-decay coefficients of the three groups are the configured value for
`decay` and zero for both `no_decay` and `gate` — the gate group carries
no weight decay, contrary to the docstring of `get_grouped_params`. -/
theorem gate_group_weight_decay_zero (named_parameters : List (PyStr × Param))
    (base_lr wd : ℚ) (gate_lr : Option ℚ) :
    (optimizer_grouped_params named_parameters base_lr wd gate_lr).map PGroup.weight_decay
      = [wd, 0, 0] := by
  rcases hgp : group_params (params_to_optimize named_parameters) with ⟨d, nd, g⟩
  rcases hg : gate_lr with _ | glr <;>
    simp [optimizer_grouped_params, get_grouped_params, hgp, hg]

end PathoMozhi
